import Mathlib

/-!
Verification of the `fmrapi` module (`src/fmrapi/fmrapi.py`), a thin client
for the Fusion Metadata Registry SDMX REST API.

The Python module is shallowly embedded as pure Lean functions.  HTTP
traffic is modelled by "world" records that hold the responses the server
would return to each request the function can make; each embedded function
returns its Python result together with the ordered list of requests it
issued (and, for the codelist writers, the ordered list of log messages).
A Python run outcome is a `PyResult`: a normal return value, an uncaught
exception, or a process exit (`exit()`).

JSON values (the result of `response.json()`) are modelled by `JVal`.
A `Response` holds the HTTP status code, the raw body text, and
`body? : Option JVal`, the outcome of `.json()` (`none` when the body is
not valid JSON, in which case `.json()` raises `json.JSONDecodeError`).

Python strings that only flow through byte-level encoding (the Basic-auth
credentials) are modelled as their UTF-8 byte sequences, `List Nat` with
entries below 256; the byte 58 is the colon of `f"{user}:{password}"`.
-/

/-- JSON values as produced by Python's `json` module (floats are not
needed by any claim, so numbers are integers). -/
inductive JVal where
  | null
  | bool (b : Bool)
  | num (n : Int)
  | str (s : String)
  | arr (xs : List JVal)
  | obj (fields : List (String × JVal))

/-- Uncaught Python exception kinds that the embedded functions can raise. -/
inductive PyErr where
  | keyError
  | typeError
  | indexError
  | attributeError
  | jsonDecodeError
  | unboundLocal
deriving DecidableEq

/-- Outcome of running a Python function: a normal return, an uncaught
exception, or a process termination via `exit()`. -/
inductive PyResult (α : Type) where
  | ok (a : α)
  | exc (e : PyErr)
  | exit (msg : String)

/-- An HTTP response: status code, raw text, and the result of `.json()`
(`none` models a body that is not valid JSON, so `.json()` raises). -/
structure Response where
  status_code : Nat
  text : String
  body? : Option JVal

/-- Python truthiness of a JSON value (`if load_status['Errors']:`). -/
def JVal.truthy : JVal → Bool
  | .null => false
  | .bool b => b
  | .num n => n != 0
  | .str s => !s.isEmpty
  | .arr xs => !xs.isEmpty
  | .obj fs => !fs.isEmpty

/-- The `api_params` configuration dictionary: base URL, path fragments and
per-endpoint path suffixes (all the fields the module reads). -/
structure ApiParams where
  url : String
  endpoint_path : String
  agency : String
  version : String
  format : String
  ref_area_endpoint : String
  add_item_endpoint : String
  load_endpoint : String
  load_status_endpoint : String

/- ===== Base64 (Python `base64.b64encode` on bytes) ===== -/

/-- The standard base64 alphabet. -/
def b64Table : List Char :=
  "ABCDEFGHIJKLMNOPQRSTUVWXYZabcdefghijklmnopqrstuvwxyz0123456789+/".data

/-- Character for a six-bit group. -/
def b64Char (n : Nat) : Char := b64Table.getD n 'A'

/-- Index of a base64 character in the alphabet (`none` for `=` and any
character outside the alphabet). -/
def b64DecChar (c : Char) : Option Nat := b64Table.findIdx? (· = c)

/-- Standard base64 encoding of a byte sequence, three bytes at a time,
padding with `=` exactly as `base64.b64encode` does. -/
def b64encBytes : List Nat → List Char
  | [] => []
  | [b1] => [b64Char (b1 / 4), b64Char (b1 % 4 * 16), '=', '=']
  | [b1, b2] =>
      [b64Char (b1 / 4), b64Char (b1 % 4 * 16 + b2 / 16), b64Char (b2 % 16 * 4), '=']
  | b1 :: b2 :: b3 :: t =>
      b64Char (b1 / 4) :: b64Char (b1 % 4 * 16 + b2 / 16) ::
      b64Char (b2 % 16 * 4 + b3 / 64) :: b64Char (b3 % 64) :: b64encBytes t

/-- Base64 decoding, the inverse direction used to state the Auth claim. -/
def b64decode : List Char → Option (List Nat)
  | [] => some []
  | c1 :: c2 :: c3 :: c4 :: rest =>
      match b64DecChar c1, b64DecChar c2 with
      | some v1, some v2 =>
          if c3 = '=' then
            if c4 = '=' ∧ rest = [] then some [v1 * 4 + v2 / 16] else none
          else
            match b64DecChar c3 with
            | some v3 =>
                if c4 = '=' then
                  if rest = [] then some [v1 * 4 + v2 / 16, v2 % 16 * 16 + v3 / 4]
                  else none
                else
                  match b64DecChar c4 with
                  | some v4 =>
                      (b64decode rest).map
                        (fun bs => (v1 * 4 + v2 / 16) :: (v2 % 16 * 16 + v3 / 4) ::
                                   (v3 % 4 * 64 + v4) :: bs)
                  | none => none
            | none => none
      | _, _ => none
  | _ => none

/-- `fmr_auth`: builds the Basic-Authentication request headers from the
credential pair.  Credentials are the UTF-8 byte sequences of the Python
strings; `58` is the byte of the `:` in `f"{user}:{password}"`.  The
`api_params` argument is taken, as in the source, but unused. -/
def fmr_auth (_api_params : ApiParams) (user password : List Nat) :
    List (String × String) :=
  [("Authorization", "Basic " ++ String.mk (b64encBytes (user ++ 58 :: password))),
   ("Content-Type", "application/json")]

/- ===== `validate_single_dataset_fmr` ===== -/

/-- The two HTTP requests `validate_single_dataset_fmr` can issue: the
multipart POST to the validation-load endpoint and the GET of the
load-status endpoint with the `uid` query parameter. -/
inductive VReq where
  | postLoad (url : String)
  | getStatus (url : String) (uid : JVal)

/-- The responses the server would give to the validator's two requests. -/
structure ValWorld where
  loadResp : Response
  statusResp : Response

/-- `dx['ValidationReport'][0]['Errors']` for one entry of
`load_status['Datasets']`; any structural mismatch raises (`KeyError` for a
missing key, `IndexError` for an empty report list, `TypeError` for
subscripting a non-container). -/
def datasetReportErrors : JVal → Except PyErr JVal
  | .obj fs =>
      match fs.lookup "ValidationReport" with
      | some (.arr (v0 :: _)) =>
          match v0 with
          | .obj gs =>
              match gs.lookup "Errors" with
              | some e => .ok e
              | none => .error .keyError
          | _ => .error .typeError
      | some (.arr []) => .error .indexError
      | some _ => .error .typeError
      | none => .error .keyError
  | _ => .error .typeError

/-- The `for dx in load_status['Datasets']` loop: collects each dataset's
`ValidationReport[0].Errors` in order, stopping at the first exception. -/
def collectErrors : List JVal → Except PyErr (List JVal)
  | [] => .ok []
  | dx :: rest => do
      let e ← datasetReportErrors dx
      let es ← collectErrors rest
      .ok (e :: es)

/-- `{"ValidationReport": v}`. -/
def mkReport (v : JVal) : JVal := .obj [("ValidationReport", v)]

/-- `validate_single_dataset_fmr`: uploads the file to the load endpoint,
then (only on HTTP 200) reads `uid` from the load body and GETs the
load-status endpoint.  Returns the Python `(validated_bool, error_dict)`
pair together with the ordered list of requests issued.  The `try` block
catches only `json.JSONDecodeError`; `KeyError` on a missing `uid` or
`Datasets` key propagates, and if the status object has neither `Errors`
nor `Error`, the `return` statement raises `UnboundLocalError` because the
result variables were never assigned.  (The auth headers the source
computes are dead: the load POST only sends the `Data-Format` header.) -/
def validate_single_dataset_fmr (p : ApiParams) (w : ValWorld) :
    PyResult (Bool × JVal) × List VReq :=
  let loadReqs := [VReq.postLoad (p.url ++ p.load_endpoint)]
  if w.loadResp.status_code = 200 then
    match w.loadResp.body? with
    | none => (.ok (false, mkReport (.str "Cannot connect to FMR instance")), loadReqs)
    | some lj =>
        match lj with
        | .obj lfs =>
            match lfs.lookup "uid" with
            | none => (.exc .keyError, loadReqs)
            | some uid =>
                let reqs := loadReqs ++ [VReq.getStatus (p.url ++ p.load_status_endpoint) uid]
                match w.statusResp.body? with
                | none =>
                    (.ok (false, mkReport (.str "Cannot connect to FMR instance")), reqs)
                | some st =>
                    match st with
                    | .obj sfs =>
                        match sfs.lookup "Errors" with
                        | some e =>
                            if e.truthy then
                              match sfs.lookup "Datasets" with
                              | some (.arr ds) =>
                                  match collectErrors ds with
                                  | .ok errs => (.ok (false, mkReport (.arr errs)), reqs)
                                  | .error ex => (.exc ex, reqs)
                              | some _ => (.exc .typeError, reqs)
                              | none => (.exc .keyError, reqs)
                            else (.ok (true, .obj []), reqs)
                        | none =>
                            match sfs.lookup "Error" with
                            | some _ => (.ok (false, mkReport (.str "Session timed out")), reqs)
                            | none => (.exc .unboundLocal, reqs)
                    | _ => (.exc .attributeError, reqs)
        | _ => (.exc .typeError, loadReqs)
  else
    (.ok (false, mkReport (.str "Error with load endpoint")), loadReqs)

/- ===== `add_single_item_to_codelist` / `add_items_to_codelist` ===== -/

/-- Python's `sub in s` on strings: `sub` occurs as a contiguous substring. -/
def containsSub (sub : List Char) : List Char → Bool
  | [] => sub.isEmpty
  | c :: cs => sub.isPrefixOf (c :: cs) || containsSub sub cs

/-- `sub in s` for Python strings. -/
def strContains (s sub : String) : Bool := containsSub sub.data s.data

/-- Python's `x == someString` when the needle is a `str`: true exactly for
an equal `str` element (no cross-type equality involves `str`). -/
def pyStrEq (s : String) : JVal → Bool
  | .str t => s = t
  | _ => false

/-- `j['Codelist'][0]['items']` as a Python list; any structural mismatch
raises (the exception kind is approximated as `TypeError` for all
non-container subscripts — no claim depends on which kind it is). -/
def codelistItems : JVal → Except PyErr (List JVal)
  | .obj fs =>
      match fs.lookup "Codelist" with
      | some (.arr (c0 :: _)) =>
          match c0 with
          | .obj cfs =>
              match cfs.lookup "items" with
              | some (.arr its) => .ok its
              | some _ => .error .typeError
              | none => .error .keyError
          | _ => .error .typeError
      | some (.arr []) => .error .indexError
      | some _ => .error .typeError
      | none => .error .keyError
  | _ => .error .typeError

/-- `[i['id'] for i in items]`. -/
def itemIds : List JVal → Except PyErr (List JVal)
  | [] => .ok []
  | .obj fs :: rest =>
      match fs.lookup "id" with
      | some v => (itemIds rest).map (v :: ·)
      | none => .error .keyError
  | _ :: _ => .error .typeError

/-- `existing_list = [i['id'] for i in req['Codelist'][0]['items']]`. -/
def extractExistingIds (rj : JVal) : Except PyErr (List JVal) :=
  codelistItems rj >>= itemIds

/-- Python `d[k] = v` on an association list: replace the first binding of
`k` in place, else append. -/
def objSet (k : String) (v : JVal) : List (String × JVal) → List (String × JVal)
  | [] => [(k, v)]
  | (k', v') :: t => if k' = k then (k', v) :: t else (k', v') :: objSet k v t

/-- The in-place mutation `req['Codelist'][0]['items'] = [temp_payload]`,
rebuilt functionally.  It is only applied after `extractExistingIds`
succeeded, so the structural path is present; on a mismatched value it
returns the input unchanged. -/
def setCodelistItems (rj : JVal) (its : List JVal) : JVal :=
  match rj with
  | .obj fs =>
      match fs.lookup "Codelist" with
      | some (.arr (c0 :: rest)) =>
          match c0 with
          | .obj cfs =>
              .obj (objSet "Codelist"
                (.arr (.obj (objSet "items" (.arr its) cfs) :: rest)) fs)
          | _ => rj
      | _ => rj
  | _ => rj

/-- `temp_payload = {"id": item_id, "names": [{"locale": "en", "value":
item_description}]}`. -/
def tempPayload (item_id item_description : String) : JVal :=
  .obj [("id", .str item_id),
        ("names", .arr [.obj [("locale", .str "en"),
                              ("value", .str item_description)]])]

/-- URL of the codelist fetch in the writer:
`url + endpoint_path + agency + '/' + codelist_id + format`. -/
def codelistUrl (p : ApiParams) (agency codelist_id : String) : String :=
  p.url ++ p.endpoint_path ++ agency ++ "/" ++ codelist_id ++ p.format

/-- Requests the codelist writer can issue: the codelist fetch, the item
POST (with its headers and JSON body), and the diagnostic re-fetch made
inside the `except` handler. -/
inductive WReq where
  | getCodelist (url : String)
  | postItems (url : String) (headers : List (String × String)) (body : JVal)
  | getCodelistDiag (url : String)

/-- Log messages the codelist writers emit (`logger.info` calls). -/
inductive LogMsg where
  | addingItems (codelist_id : String)
  | itemStart (id : String)
  | addedSuccess
  | postResponse (v : JVal)
  | alreadyExists

/-- The responses the server would give to the writer's possible requests. -/
structure WriterWorld where
  codelistResp : Response
  postResp : Response
  diagResp : Response

/-- `add_single_item_to_codelist`.  Returns the Python outcome, the ordered
requests issued, and the log messages emitted.  Faithful points: the `try`
block catches only `json.JSONDecodeError`, so a `KeyError` from the id
extraction propagates; inside the `except` handler the source does
`req = requests.get(...).json()` and then reads `req.text` — the parsed
dict has no `.text` attribute, so the handler raises
(`json.JSONDecodeError` if the re-fetch body is again invalid JSON,
`AttributeError` otherwise) and the trailing `return True` is never
reached on that path.  `headers['ACTION'] = action` appends to the two
fresh auth headers. -/
def add_single_item_to_codelist (p : ApiParams) (w : WriterWorld)
    (user password : List Nat) (codelist_id item_id item_description : String)
    (agency : String := "WB") (action : String := "MERGE") :
    PyResult Bool × List WReq × List LogMsg :=
  let headers := fmr_auth p user password
  let cUrl := codelistUrl p agency codelist_id
  match w.codelistResp.body? with
  | none =>
      let reqs := [WReq.getCodelist cUrl, WReq.getCodelistDiag cUrl]
      match w.diagResp.body? with
      | none => (.exc .jsonDecodeError, reqs, [])
      | some _ => (.exc .attributeError, reqs, [])
  | some rj =>
      match extractExistingIds rj with
      | .error e => (.exc e, [WReq.getCodelist cUrl], [])
      | .ok ids =>
          if ids.any (pyStrEq item_id) then
            (.ok true, [WReq.getCodelist cUrl], [LogMsg.alreadyExists])
          else
            let newBody := setCodelistItems rj [tempPayload item_id item_description]
            let headers2 := headers ++ [("ACTION", action)]
            let reqs := [WReq.getCodelist cUrl,
                         WReq.postItems (p.url ++ p.add_item_endpoint) headers2 newBody]
            if strContains w.postResp.text "Success" then
              (.ok true, reqs, [LogMsg.addedSuccess])
            else
              match w.postResp.body? with
              | some v => (.ok true, reqs, [LogMsg.postResponse v])
              | none =>
                  let reqs2 := reqs ++ [WReq.getCodelistDiag cUrl]
                  match w.diagResp.body? with
                  | none => (.exc .jsonDecodeError, reqs2, [])
                  | some _ => (.exc .attributeError, reqs2, [])

/-- The `for item in item_list` loop of `add_items_to_codelist`: each item
is a dict `{'id': ..., 'description': ...}`, modelled as a string pair;
each call consumes one `WriterWorld`.  An uncaught exception from the
single-item writer aborts the loop and propagates. -/
def addItemsLoop (p : ApiParams) (user password : List Nat)
    (codelist_id agency action : String) :
    List ((String × String) × WriterWorld) → PyResult Bool × List WReq × List LogMsg
  | [] => (.ok true, [], [])
  | ((id, desc), w) :: rest =>
      let r := add_single_item_to_codelist p w user password codelist_id id desc agency action
      match r.1 with
      | .ok _ =>
          let t := addItemsLoop p user password codelist_id agency action rest
          (t.1, r.2.1 ++ t.2.1, LogMsg.itemStart id :: (r.2.2 ++ t.2.2))
      | .exc e => (.exc e, r.2.1, LogMsg.itemStart id :: r.2.2)
      | .exit m => (.exit m, r.2.1, LogMsg.itemStart id :: r.2.2)

/-- `add_items_to_codelist`: logs the batch header, then runs the
single-item writer sequentially over the item list in order. -/
def add_items_to_codelist (p : ApiParams) (ws : List WriterWorld)
    (user password : List Nat) (codelist_id : String)
    (item_list : List (String × String))
    (agency : String := "WB") (action : String := "MERGE") :
    PyResult Bool × List WReq × List LogMsg :=
  let r := addItemsLoop p user password codelist_id agency action (item_list.zip ws)
  (r.1, r.2.1, LogMsg.addingItems codelist_id :: r.2.2)

/-- Recognizes the existence-check GET among the writer's requests. -/
def isGetCodelist : WReq → Bool
  | .getCodelist _ => true
  | _ => false

/- ===== `get_ref_area_codelist` ===== -/

/-- Python-hashable JSON values: anything but a list or a dict can be a
dict key. -/
def JVal.hashable : JVal → Bool
  | .arr _ => false
  | .obj _ => false
  | _ => true

/-- Python `==` between dict keys (scalars only; note `True == 1` and
`False == 0` across `bool`/`int`). -/
def pyKeyEq : JVal → JVal → Bool
  | .null, .null => true
  | .bool a, .bool b => a == b
  | .num a, .num b => a == b
  | .str a, .str b => a == b
  | .bool a, .num b => (if a then (1 : Int) else 0) == b
  | .num a, .bool b => a == (if b then (1 : Int) else 0)
  | _, _ => false

/-- Python `d[k] = v` on a dict with arbitrary (hashable) keys: replace the
first binding whose key equals `k`, else append. -/
def dictInsert : List (JVal × JVal) → JVal → JVal → List (JVal × JVal)
  | [], k, v => [(k, v)]
  | (k', v') :: t, k, v =>
      if pyKeyEq k' k then (k', v) :: t else (k', v') :: dictInsert t k v

/-- Python `d[k]` lookup. -/
def dictLookup : List (JVal × JVal) → JVal → Option JVal
  | [], _ => none
  | (k', v') :: t, k => if pyKeyEq k' k then some v' else dictLookup t k

/-- One iteration of the reader loop: the assignment
`ref_area_dict[economy['names'][0]['value']] = economy['id']` yields the
(key, value) pair; the right-hand side `economy['id']` is evaluated first;
an unhashable key raises `TypeError`. -/
def refAreaPair : JVal → Except PyErr (JVal × JVal)
  | .obj fs =>
      match fs.lookup "id" with
      | some idv =>
          match fs.lookup "names" with
          | some (.arr (n0 :: _)) =>
              match n0 with
              | .obj ns =>
                  match ns.lookup "value" with
                  | some k => if k.hashable then .ok (k, idv) else .error .typeError
                  | none => .error .keyError
              | _ => .error .typeError
          | some (.arr []) => .error .indexError
          | some _ => .error .typeError
          | none => .error .keyError
      | none => .error .keyError
  | _ => .error .typeError

/-- The reader loop over `codelist_dict['Codelist'][0]['items']`, in
order. -/
def refAreaPairs : List JVal → Except PyErr (List (JVal × JVal))
  | [] => .ok []
  | economy :: rest => do
      let pr ← refAreaPair economy
      let ps ← refAreaPairs rest
      .ok (pr :: ps)

/-- Building `ref_area_dict` by successive Python dict assignments. -/
def buildDict (ps : List (JVal × JVal)) : List (JVal × JVal) :=
  ps.foldl (fun d pr => dictInsert d pr.1 pr.2) []

/-- `get_ref_area_codelist`: the `try` wraps only the GET and `.json()`;
on `json.JSONDecodeError` the source prints `FMR instance not
accessible!` and calls `exit()`, terminating the process.  The loop runs
outside the `try`, so its exceptions propagate. -/
def get_ref_area_codelist (_p : ApiParams) (w : Response) :
    PyResult (List (JVal × JVal)) :=
  match w.body? with
  | none => .exit "FMR instance not accessible!"
  | some j =>
      match codelistItems j with
      | .error e => .exc e
      | .ok its =>
          match refAreaPairs its with
          | .error e => .exc e
          | .ok ps => .ok (buildDict ps)

/- ===== `validate_datasets_fmr` ===== -/

/-- The `for filename in datasets.keys()` loop of `validate_datasets_fmr`:
accumulates the two parallel result dicts; an uncaught exception from the
single-file validator aborts the loop and propagates. -/
def validateDatasetsLoop (p : ApiParams) :
    List (String × ValWorld) →
    PyResult (List (String × Bool) × List (String × JVal))
  | [] => .ok ([], [])
  | (fn, w) :: rest =>
      match (validate_single_dataset_fmr p w).1 with
      | .ok (b, e) =>
          match validateDatasetsLoop p rest with
          | .ok (vs, es) => .ok ((fn, b) :: vs, (fn, e) :: es)
          | .exc ex => .exc ex
          | .exit m => .exit m
      | .exc ex => .exc ex
      | .exit m => .exit m

/-- `validate_datasets_fmr`: when the gating boolean is false, returns
Python `None` (modelled as `none`); otherwise validates every file of the
mapping in iteration order (`folder_name` only feeds the file paths, which
live in the worlds). -/
def validate_datasets_fmr (p : ApiParams) (ws : List ValWorld)
    (datasets : List String) (_folder_name : String) (boolean : Bool) :
    Option (PyResult (List (String × Bool) × List (String × JVal))) :=
  if boolean then some (validateDatasetsLoop p (datasets.zip ws)) else none

/-- A concrete configuration used to instantiate the theorems below on
sample worlds. -/
def sampleParams : ApiParams :=
  { url := "http://fmr.example/"
    endpoint_path := "ws/public/sdmxapi/rest/codelist/"
    agency := "WB/"
    version := "1.0"
    format := "?format=sdmx-json"
    ref_area_endpoint := "CL_REF_AREA_WDI"
    add_item_endpoint := "ws/secure/sdmxapi/rest"
    load_endpoint := "ws/public/data/load"
    load_status_endpoint := "ws/public/data/loadStatus" }

/- ===== Theorems ===== -/

/-- C2: a load response whose HTTP status code is not 200 yields exactly
`(False, {"ValidationReport": "Error with load endpoint"})`, and the only
request issued is the load POST — no GET of the load-status endpoint. -/
theorem validate_non200_spec (p : ApiParams) (w : ValWorld)
    (h : w.loadResp.status_code ≠ 200) :
    validate_single_dataset_fmr p w =
      (.ok (false, mkReport (.str "Error with load endpoint")),
       [VReq.postLoad (p.url ++ p.load_endpoint)]) := by
  unfold validate_single_dataset_fmr
  simp [h]

/-- Witness for C2 at a concrete 500 load response. -/
theorem validate_non200_witness :
    validate_single_dataset_fmr sampleParams
      ⟨⟨500, "Server Error", none⟩, ⟨200, "", none⟩⟩ =
      (.ok (false, mkReport (.str "Error with load endpoint")),
       [VReq.postLoad (sampleParams.url ++ sampleParams.load_endpoint)]) :=
  validate_non200_spec sampleParams ⟨⟨500, "Server Error", none⟩, ⟨200, "", none⟩⟩
    (by decide)

/-- C1: on an HTTP-200 load response carrying a `uid` and a JSON status
object with key `Errors`: a falsy `Errors` value gives `(True, {})`; a
truthy one gives `(False, {"ValidationReport": L})` with `L` collecting,
for each dataset of `Datasets` in order, that dataset's
`ValidationReport[0].Errors`. -/
theorem validate_errors_key_spec (p : ApiParams) (w : ValWorld)
    (lfs sfs : List (String × JVal)) (uid e : JVal)
    (h200 : w.loadResp.status_code = 200)
    (hload : w.loadResp.body? = some (.obj lfs))
    (huid : lfs.lookup "uid" = some uid)
    (hstat : w.statusResp.body? = some (.obj sfs))
    (herr : sfs.lookup "Errors" = some e) :
    (e.truthy = false →
      (validate_single_dataset_fmr p w).1 = .ok (true, .obj [])) ∧
    (∀ ds errs, e.truthy = true →
      sfs.lookup "Datasets" = some (.arr ds) →
      collectErrors ds = .ok errs →
      (validate_single_dataset_fmr p w).1 =
        .ok (false, mkReport (.arr errs))) := by
  constructor
  · intro hf
    unfold validate_single_dataset_fmr
    simp [h200, hload, huid, hstat, herr, hf]
  · intro ds errs ht hds hcol
    unfold validate_single_dataset_fmr
    simp [h200, hload, huid, hstat, herr, ht, hds, hcol]

/-- Witness for C1: the spec's success example (status `{"Errors": false}`
gives `(True, {})`) and failure example (`{"Errors": true, "Datasets":
[{"ValidationReport": [{"Errors": ["bad row"]}]}]}` gives
`(False, {"ValidationReport": [["bad row"]]})`). -/
theorem validate_errors_key_witness :
    (validate_single_dataset_fmr sampleParams
      ⟨⟨200, "", some (.obj [("uid", .str "123")])⟩,
       ⟨200, "", some (.obj [("Errors", .bool false)])⟩⟩).1 =
      .ok (true, .obj []) ∧
    (validate_single_dataset_fmr sampleParams
      ⟨⟨200, "", some (.obj [("uid", .str "123")])⟩,
       ⟨200, "", some (.obj [("Errors", .bool true),
          ("Datasets", .arr [.obj [("ValidationReport",
            .arr [.obj [("Errors", .arr [.str "bad row"])]])]])])⟩⟩).1 =
      .ok (false, mkReport (.arr [.arr [.str "bad row"]])) := by
  constructor
  · exact (validate_errors_key_spec sampleParams
      ⟨⟨200, "", some (.obj [("uid", .str "123")])⟩,
       ⟨200, "", some (.obj [("Errors", .bool false)])⟩⟩
      [("uid", .str "123")] [("Errors", .bool false)]
      (.str "123") (.bool false) rfl rfl rfl rfl rfl).1 rfl
  · exact (validate_errors_key_spec sampleParams
      ⟨⟨200, "", some (.obj [("uid", .str "123")])⟩,
       ⟨200, "", some (.obj [("Errors", .bool true),
          ("Datasets", .arr [.obj [("ValidationReport",
            .arr [.obj [("Errors", .arr [.str "bad row"])]])]])])⟩⟩
      [("uid", .str "123")]
      [("Errors", .bool true),
       ("Datasets", .arr [.obj [("ValidationReport",
         .arr [.obj [("Errors", .arr [.str "bad row"])]])]])]
      (.str "123") (.bool true) rfl rfl rfl rfl rfl).2
      [.obj [("ValidationReport", .arr [.obj [("Errors", .arr [.str "bad row"])]])]]
      [.arr [.str "bad row"]] rfl rfl rfl

/-- C3: on an HTTP-200 load response with a `uid`, when both bodies parse
as JSON but the status object has neither `Errors` nor `Error`, the
result variables are never assigned and the `return` raises
`UnboundLocalError` — the function does not return a `(bool, dict)`
pair. -/
theorem validate_no_keys_unbound (p : ApiParams) (w : ValWorld)
    (lfs sfs : List (String × JVal)) (uid : JVal)
    (h200 : w.loadResp.status_code = 200)
    (hload : w.loadResp.body? = some (.obj lfs))
    (huid : lfs.lookup "uid" = some uid)
    (hstat : w.statusResp.body? = some (.obj sfs))
    (hne : sfs.lookup "Errors" = none)
    (hne2 : sfs.lookup "Error" = none) :
    (validate_single_dataset_fmr p w).1 = .exc .unboundLocal := by
  unfold validate_single_dataset_fmr
  simp [h200, hload, huid, hstat, hne, hne2]

/-- C4: when the fetched codelist already contains `item_id`, the writer
issues only the codelist GET (no POST), logs that the id already exists,
and returns success. -/
theorem add_single_existing_no_post (p : ApiParams) (w : WriterWorld)
    (user password : List Nat)
    (codelist_id item_id item_description agency action : String)
    (rj : JVal) (ids : List JVal)
    (hb : w.codelistResp.body? = some rj)
    (hx : extractExistingIds rj = .ok ids)
    (hmem : ids.any (pyStrEq item_id) = true) :
    add_single_item_to_codelist p w user password codelist_id item_id
        item_description agency action =
      (.ok true, [WReq.getCodelist (codelistUrl p agency codelist_id)],
       [LogMsg.alreadyExists]) := by
  unfold add_single_item_to_codelist
  simp [hb, hx, hmem]

/-- Witness for C4: adding `"USA"` to a codelist that already lists
`"USA"` performs no POST and succeeds. -/
theorem add_single_existing_no_post_witness :
    add_single_item_to_codelist sampleParams
      ⟨⟨200, "",
        some (.obj [("Codelist", .arr [.obj [("items",
          .arr [.obj [("id", .str "USA")]])]])])⟩,
       ⟨200, "", none⟩, ⟨200, "", none⟩⟩
      [117] [112] "CL_TEST" "USA" "United States" "WB" "MERGE" =
      (.ok true,
       [WReq.getCodelist (codelistUrl sampleParams "WB" "CL_TEST")],
       [LogMsg.alreadyExists]) :=
  add_single_existing_no_post sampleParams
    ⟨⟨200, "",
      some (.obj [("Codelist", .arr [.obj [("items",
        .arr [.obj [("id", .str "USA")]])]])])⟩,
     ⟨200, "", none⟩, ⟨200, "", none⟩⟩
    [117] [112] "CL_TEST" "USA" "United States" "WB" "MERGE"
    (.obj [("Codelist", .arr [.obj [("items",
      .arr [.obj [("id", .str "USA")]])]])])
    [.str "USA"] rfl rfl rfl

/-- C5: when the fetched codelist does not contain `item_id`, the writer's
second request is a POST to the items-add endpoint whose body is the
fetched codelist JSON with `Codelist[0].items` replaced by the
single-element payload `[{id, names: [{locale: "en", value:
item_description}]}]`, and whose headers are the auth headers extended
with the `ACTION` header. -/
theorem add_single_new_posts (p : ApiParams) (w : WriterWorld)
    (user password : List Nat)
    (codelist_id item_id item_description agency action : String)
    (rj : JVal) (ids : List JVal)
    (hb : w.codelistResp.body? = some rj)
    (hx : extractExistingIds rj = .ok ids)
    (hmem : ids.any (pyStrEq item_id) = false) :
    (add_single_item_to_codelist p w user password codelist_id item_id
        item_description agency action).2.1.take 2 =
      [WReq.getCodelist (codelistUrl p agency codelist_id),
       WReq.postItems (p.url ++ p.add_item_endpoint)
         (fmr_auth p user password ++ [("ACTION", action)])
         (setCodelistItems rj [tempPayload item_id item_description])] := by
  unfold add_single_item_to_codelist
  simp [hb, hx, hmem]
  split
  · rfl
  · split <;> first | rfl | (split <;> rfl)

/-- Witness for C5: adding `"CAN"` to a codelist listing only `"USA"`
posts the reshaped codelist body with the expected headers. -/
theorem add_single_new_posts_witness :
    (add_single_item_to_codelist sampleParams
      ⟨⟨200, "",
        some (.obj [("Codelist", .arr [.obj [("items",
          .arr [.obj [("id", .str "USA")]])]])])⟩,
       ⟨200, "Success", none⟩, ⟨200, "", none⟩⟩
      [117] [112] "CL_TEST" "CAN" "Canada" "WB" "MERGE").2.1.take 2 =
      [WReq.getCodelist (codelistUrl sampleParams "WB" "CL_TEST"),
       WReq.postItems (sampleParams.url ++ sampleParams.add_item_endpoint)
         (fmr_auth sampleParams [117] [112] ++ [("ACTION", "MERGE")])
         (setCodelistItems
           (.obj [("Codelist", .arr [.obj [("items",
             .arr [.obj [("id", .str "USA")]])]])])
           [tempPayload "CAN" "Canada"])] :=
  add_single_new_posts sampleParams
    ⟨⟨200, "",
      some (.obj [("Codelist", .arr [.obj [("items",
        .arr [.obj [("id", .str "USA")]])]])])⟩,
     ⟨200, "Success", none⟩, ⟨200, "", none⟩⟩
    [117] [112] "CL_TEST" "CAN" "Canada" "WB" "MERGE"
    (.obj [("Codelist", .arr [.obj [("items",
      .arr [.obj [("id", .str "USA")]])]])])
    [.str "USA"] rfl rfl rfl

/-- C6 evaluated at failing inputs: when the codelist fetch body is not
valid JSON, the `except` handler calls `.json()` on the re-issued GET and
then reads `.text` off the parsed value, so it raises
(`json.JSONDecodeError` when the re-fetch body is again invalid,
`AttributeError` otherwise) — it never reaches the claimed logging nor the
`return True`. -/
theorem add_single_diag_branch_raises :
    (add_single_item_to_codelist sampleParams
      ⟨⟨200, "Blocked by server", none⟩, ⟨200, "", none⟩,
       ⟨200, "Blocked by server", none⟩⟩
      [117] [112] "CL_TEST" "USA" "United States" "WB" "MERGE").1 =
      .exc .jsonDecodeError ∧
    (add_single_item_to_codelist sampleParams
      ⟨⟨200, "Blocked by server", none⟩, ⟨200, "", none⟩,
       ⟨200, "ok", some (.obj [])⟩⟩
      [117] [112] "CL_TEST" "USA" "United States" "WB" "MERGE").1 =
      .exc .attributeError :=
  ⟨rfl, rfl⟩

/-- Every run of the single-item writer issues exactly one existence-check
GET, regardless of outcome. -/
theorem add_single_getCodelist_filter (p : ApiParams) (w : WriterWorld)
    (user password : List Nat)
    (codelist_id item_id item_description agency action : String) :
    (add_single_item_to_codelist p w user password codelist_id item_id
        item_description agency action).2.1.filter isGetCodelist =
      [WReq.getCodelist (codelistUrl p agency codelist_id)] := by
  unfold add_single_item_to_codelist
  repeat' split
  all_goals simp [isGetCodelist]

/-- The batch loop under a benign world: success, requests are the
concatenation of each item's requests in input order, and the
existence-check GETs number one per item. -/
theorem addItemsLoop_spec (p : ApiParams) (user password : List Nat)
    (codelist_id agency action : String)
    (l : List ((String × String) × WriterWorld))
    (hok : ∀ pr ∈ l,
      (add_single_item_to_codelist p pr.2 user password codelist_id
        pr.1.1 pr.1.2 agency action).1 = .ok true) :
    (addItemsLoop p user password codelist_id agency action l).1 = .ok true ∧
    (addItemsLoop p user password codelist_id agency action l).2.1 =
      l.flatMap (fun pr => (add_single_item_to_codelist p pr.2 user password
        codelist_id pr.1.1 pr.1.2 agency action).2.1) ∧
    (addItemsLoop p user password codelist_id agency action l).2.1.filter
        isGetCodelist =
      List.replicate l.length (WReq.getCodelist
        (codelistUrl p agency codelist_id)) := by
  induction l with
  | nil => exact ⟨rfl, rfl, rfl⟩
  | cons hd tl ih =>
      obtain ⟨⟨id, desc⟩, w⟩ := hd
      have hhd := hok _ (List.mem_cons_self _ _)
      have ihs := ih (fun pr hpr => hok pr (List.mem_cons_of_mem _ hpr))
      simp only [addItemsLoop, hhd]
      refine ⟨ihs.1, ?_, ?_⟩
      · simp [ihs.2.1, List.flatMap]
      · simp [List.filter_append, add_single_getCodelist_filter, ihs.2.2,
          List.replicate_succ]

/-- C7: with one world per item and every single-item call completing, the
batch writer invokes the single-item writer once per item sequentially in
list order — its request trace is the in-order concatenation of the
per-item traces and contains exactly one existence-check GET per item —
and it returns success. -/
theorem add_items_batch_spec (p : ApiParams) (ws : List WriterWorld)
    (user password : List Nat) (codelist_id agency action : String)
    (items : List (String × String))
    (hlen : ws.length = items.length)
    (hok : ∀ pr ∈ items.zip ws,
      (add_single_item_to_codelist p pr.2 user password codelist_id
        pr.1.1 pr.1.2 agency action).1 = .ok true) :
    (add_items_to_codelist p ws user password codelist_id items agency
        action).1 = .ok true ∧
    (add_items_to_codelist p ws user password codelist_id items agency
        action).2.1 =
      (items.zip ws).flatMap (fun pr =>
        (add_single_item_to_codelist p pr.2 user password codelist_id
          pr.1.1 pr.1.2 agency action).2.1) ∧
    (add_items_to_codelist p ws user password codelist_id items agency
        action).2.1.filter isGetCodelist =
      List.replicate items.length
        (WReq.getCodelist (codelistUrl p agency codelist_id)) := by
  have h := addItemsLoop_spec p user password codelist_id agency action
    (items.zip ws) hok
  have hz : (items.zip ws).length = items.length := by
    simp [List.length_zip, hlen]
  refine ⟨h.1, h.2.1, ?_⟩
  rw [show (add_items_to_codelist p ws user password codelist_id items agency
    action).2.1 = (addItemsLoop p user password codelist_id agency action
      (items.zip ws)).2.1 from rfl, h.2.2, hz]

/-- Witness for C7: a two-item batch against codelists already containing
both ids issues exactly two existence-check GETs and succeeds. -/
theorem add_items_batch_spec_witness :
    (add_items_to_codelist sampleParams
      [⟨⟨200, "", some (.obj [("Codelist", .arr [.obj [("items",
          .arr [.obj [("id", .str "AAA")]])]])])⟩,
        ⟨200, "", none⟩, ⟨200, "", none⟩⟩,
       ⟨⟨200, "", some (.obj [("Codelist", .arr [.obj [("items",
          .arr [.obj [("id", .str "BBB")]])]])])⟩,
        ⟨200, "", none⟩, ⟨200, "", none⟩⟩]
      [117] [112] "CL_TEST" [("AAA", "first"), ("BBB", "second")]
      "WB" "MERGE").1 = .ok true ∧
    (add_items_to_codelist sampleParams
      [⟨⟨200, "", some (.obj [("Codelist", .arr [.obj [("items",
          .arr [.obj [("id", .str "AAA")]])]])])⟩,
        ⟨200, "", none⟩, ⟨200, "", none⟩⟩,
       ⟨⟨200, "", some (.obj [("Codelist", .arr [.obj [("items",
          .arr [.obj [("id", .str "BBB")]])]])])⟩,
        ⟨200, "", none⟩, ⟨200, "", none⟩⟩]
      [117] [112] "CL_TEST" [("AAA", "first"), ("BBB", "second")]
      "WB" "MERGE").2.1.filter isGetCodelist =
      List.replicate 2
        (WReq.getCodelist (codelistUrl sampleParams "WB" "CL_TEST")) := by
  have h := add_items_batch_spec sampleParams
    [⟨⟨200, "", some (.obj [("Codelist", .arr [.obj [("items",
        .arr [.obj [("id", .str "AAA")]])]])])⟩,
      ⟨200, "", none⟩, ⟨200, "", none⟩⟩,
     ⟨⟨200, "", some (.obj [("Codelist", .arr [.obj [("items",
        .arr [.obj [("id", .str "BBB")]])]])])⟩,
      ⟨200, "", none⟩, ⟨200, "", none⟩⟩]
    [117] [112] "CL_TEST" "WB" "MERGE" [("AAA", "first"), ("BBB", "second")]
    rfl (by intro pr hpr; simp at hpr; rcases hpr with h1 | h1 <;> rw [h1] <;> rfl)
  exact ⟨h.1, h.2.2⟩

/-- `pyKeyEq` is reflexive on hashable (scalar) keys. -/
theorem pyKeyEq_refl (k : JVal) (h : k.hashable = true) : pyKeyEq k k = true := by
  cases k <;> simp_all [JVal.hashable, pyKeyEq]

/-- Inserting a key equal to none of the keys of `d` appends. -/
theorem dictInsert_append (d : List (JVal × JVal)) (k v : JVal)
    (h : ∀ pr ∈ d, pyKeyEq pr.1 k = false) :
    dictInsert d k v = d ++ [(k, v)] := by
  induction d with
  | nil => rfl
  | cons hd tl ih =>
      obtain ⟨k', v'⟩ := hd
      have hk := h _ (List.mem_cons_self _ _)
      simp only [dictInsert, hk]
      simp only [Bool.false_eq_true, if_false, List.cons_append, List.cons.injEq,
        true_and]
      exact ih (fun pr hpr => h pr (List.mem_cons_of_mem _ hpr))

/-- Folding Python dict assignments over pairs with pairwise distinct keys,
none colliding with the accumulator, appends them all in order. -/
theorem buildDict_foldl (ps : List (JVal × JVal)) :
    ∀ acc : List (JVal × JVal),
    ps.Pairwise (fun a b => pyKeyEq a.1 b.1 = false) →
    (∀ a ∈ acc, ∀ b ∈ ps, pyKeyEq a.1 b.1 = false) →
    ps.foldl (fun d pr => dictInsert d pr.1 pr.2) acc = acc ++ ps := by
  induction ps with
  | nil => intro acc _ _; simp
  | cons hd tl ih =>
      intro acc hpw hacc
      rw [List.foldl_cons,
        dictInsert_append acc hd.1 hd.2
          (fun pr hpr => hacc pr hpr hd (List.mem_cons_self _ _))]
      rw [ih (acc ++ [hd]) (List.Pairwise.of_cons hpw) ?_]
      · simp
      · intro a ha b hb
        rcases List.mem_append.mp ha with h1 | h1
        · exact hacc a h1 b (List.mem_cons_of_mem _ hb)
        · have : a = hd := by simpa using h1
          subst this
          exact (List.pairwise_cons.mp hpw).1 b hb

/-- With pairwise distinct keys the built dict is the pair list itself. -/
theorem buildDict_eq (ps : List (JVal × JVal))
    (hpw : ps.Pairwise (fun a b => pyKeyEq a.1 b.1 = false)) :
    buildDict ps = ps := by
  have := buildDict_foldl ps [] hpw (by intro a ha; simp at ha)
  simpa [buildDict] using this

/-- In a pair list with pairwise distinct hashable keys, looking up any
entry's key finds that entry's value. -/
theorem dictLookup_self (ps : List (JVal × JVal))
    (hpw : ps.Pairwise (fun a b => pyKeyEq a.1 b.1 = false))
    (hh : ∀ pr ∈ ps, pr.1.hashable = true) :
    ∀ pr ∈ ps, dictLookup ps pr.1 = some pr.2 := by
  induction ps with
  | nil => intro pr hpr; simp at hpr
  | cons hd tl ih =>
      intro pr hpr
      rcases List.mem_cons.mp hpr with h1 | h1
      · subst h1
        simp [dictLookup, pyKeyEq_refl pr.1 (hh pr (List.mem_cons_self _ _))]
      · have hne : pyKeyEq hd.1 pr.1 = false :=
          (List.pairwise_cons.mp hpw).1 pr h1
        simp only [dictLookup, hne, Bool.false_eq_true, if_false]
        exact ih (List.Pairwise.of_cons hpw)
          (fun q hq => hh q (List.mem_cons_of_mem _ hq)) pr h1

/-- Keys produced by the reader loop passed the hashability check. -/
theorem refAreaPairs_hashable (its : List JVal) (ps : List (JVal × JVal))
    (h : refAreaPairs its = .ok ps) : ∀ pr ∈ ps, pr.1.hashable = true := by
  induction its generalizing ps with
  | nil =>
      simp only [refAreaPairs] at h
      cases h
      intro pr hpr; simp at hpr
  | cons economy rest ih =>
      simp only [refAreaPairs, bind, Except.bind] at h
      cases he : refAreaPair economy with
      | error e => rw [he] at h; cases h
      | ok pr0 =>
          rw [he] at h
          cases hr : refAreaPairs rest with
          | error e => rw [hr] at h; cases h
          | ok ps0 =>
              rw [hr] at h
              cases h
              intro pr hpr
              rcases List.mem_cons.mp hpr with h1 | h1
              · subst h1
                revert he
                unfold refAreaPair
                cases economy <;> intro he <;> try cases he
                case obj fs =>
                  simp only at he
                  repeat' split at he
                  all_goals cases he
                  all_goals simp_all
              · exact ih ps0 hr pr h1

/-- C8: for a JSON codelist response whose `Codelist[0].items` traversal
succeeds with pairwise-distinct name keys, the reader returns exactly the
mapping associating each item's first localized name value to the item's
id. -/
theorem get_ref_area_spec (p : ApiParams) (w : Response) (j : JVal)
    (its : List JVal) (ps : List (JVal × JVal))
    (hb : w.body? = some j)
    (hits : codelistItems j = .ok its)
    (hps : refAreaPairs its = .ok ps)
    (hpw : ps.Pairwise (fun a b => pyKeyEq a.1 b.1 = false)) :
    get_ref_area_codelist p w = .ok ps ∧
    ∀ pr ∈ ps, dictLookup ps pr.1 = some pr.2 := by
  constructor
  · unfold get_ref_area_codelist
    simp only [hb, hits, hps, buildDict_eq ps hpw]
  · exact dictLookup_self ps hpw (refAreaPairs_hashable its ps hps)

/-- Witness for C8: the spec's mock response
`{"Codelist": [{"items": [{"id": "INX", "names": [{"value": "Not
classified"}]}]}]}` yields exactly `{"Not classified": "INX"}`. -/
theorem get_ref_area_spec_witness :
    get_ref_area_codelist sampleParams
      ⟨200, "",
       some (.obj [("Codelist", .arr [.obj [("items",
         .arr [.obj [("id", .str "INX"),
           ("names", .arr [.obj [("value", .str "Not classified")]])]])]])])⟩ =
      .ok [(.str "Not classified", .str "INX")] ∧
    dictLookup [(.str "Not classified", .str "INX")]
      (.str "Not classified") = some (.str "INX") := by
  have h := get_ref_area_spec sampleParams
    ⟨200, "",
     some (.obj [("Codelist", .arr [.obj [("items",
       .arr [.obj [("id", .str "INX"),
         ("names", .arr [.obj [("value", .str "Not classified")]])]])]])])⟩
    (.obj [("Codelist", .arr [.obj [("items",
       .arr [.obj [("id", .str "INX"),
         ("names", .arr [.obj [("value", .str "Not classified")]])]])]])])
    [.obj [("id", .str "INX"),
      ("names", .arr [.obj [("value", .str "Not classified")]])]]
    [(.str "Not classified", .str "INX")]
    rfl rfl rfl (by simp)
  exact ⟨h.1, h.2 _ (List.mem_singleton.mpr rfl)⟩

/-- The single-file validator never terminates the process. -/
theorem validate_single_never_exit (p : ApiParams) (w : ValWorld)
    (m : String) : (validate_single_dataset_fmr p w).1 ≠ .exit m := by
  unfold validate_single_dataset_fmr
  repeat' split
  all_goals simp

/-- The single-item writer never terminates the process. -/
theorem add_single_never_exit (p : ApiParams) (w : WriterWorld)
    (user password : List Nat)
    (codelist_id item_id item_description agency action : String)
    (m : String) :
    (add_single_item_to_codelist p w user password codelist_id item_id
        item_description agency action).1 ≠ .exit m := by
  unfold add_single_item_to_codelist
  repeat' split
  all_goals simp

/-- The batch writer never terminates the process. -/
theorem addItemsLoop_never_exit (p : ApiParams) (user password : List Nat)
    (codelist_id agency action : String)
    (l : List ((String × String) × WriterWorld)) (m : String) :
    (addItemsLoop p user password codelist_id agency action l).1 ≠ .exit m := by
  induction l with
  | nil => simp [addItemsLoop]
  | cons hd tl ih =>
      obtain ⟨⟨id, desc⟩, w⟩ := hd
      simp only [addItemsLoop]
      split
      · exact ih
      · simp
      · exact absurd (by assumption)
          (add_single_never_exit p w user password codelist_id id desc
            agency action _ ∘ Eq.symm ∘ Eq.symm)

/-- The batch validator loop never terminates the process. -/
theorem validateDatasetsLoop_never_exit (p : ApiParams)
    (l : List (String × ValWorld)) :
    ∀ m : String, validateDatasetsLoop p l ≠ .exit m := by
  induction l with
  | nil => intro m; simp [validateDatasetsLoop]
  | cons hd tl ih =>
      intro m
      obtain ⟨fn, w⟩ := hd
      simp only [validateDatasetsLoop]
      split
      · split
        · simp
        · simp
        · exact absurd (by assumption) (ih _)
      · simp
      · exact absurd (by assumption) (validate_single_never_exit p w _)

/-- C9: when the codelist GET body is not valid JSON, the reader reports
the registry as not accessible and terminates the process (`exit()`)
instead of returning or raising to the caller — and it is the only
operation in the module whose run can end in a process exit. -/
theorem reader_exit_policy :
    (∀ (p : ApiParams) (w : Response), w.body? = none →
      get_ref_area_codelist p w = .exit "FMR instance not accessible!") ∧
    (∀ (p : ApiParams) (w : WriterWorld) (user password : List Nat)
      (codelist_id item_id item_description agency action m : String),
      (add_single_item_to_codelist p w user password codelist_id item_id
        item_description agency action).1 ≠ .exit m) ∧
    (∀ (p : ApiParams) (ws : List WriterWorld) (user password : List Nat)
      (codelist_id : String) (item_list : List (String × String))
      (agency action m : String),
      (add_items_to_codelist p ws user password codelist_id item_list
        agency action).1 ≠ .exit m) ∧
    (∀ (p : ApiParams) (w : ValWorld) (m : String),
      (validate_single_dataset_fmr p w).1 ≠ .exit m) ∧
    (∀ (p : ApiParams) (ws : List ValWorld) (datasets : List String)
      (folder_name : String) (boolean : Bool) (m : String),
      validate_datasets_fmr p ws datasets folder_name boolean ≠
        some (.exit m)) := by
  refine ⟨?_, ?_, ?_, ?_, ?_⟩
  · intro p w h
    unfold get_ref_area_codelist
    rw [h]
  · exact fun p w user password c i d a act m =>
      add_single_never_exit p w user password c i d a act m
  · intro p ws user password c items a act m
    exact addItemsLoop_never_exit p user password c a act (items.zip ws) m
  · exact validate_single_never_exit
  · intro p ws ds fn b m
    unfold validate_datasets_fmr
    split
    · intro h
      exact validateDatasetsLoop_never_exit p (ds.zip ws) m
        (Option.some_injective _ h)
    · simp

/-- Witness for C9: a concrete non-JSON codelist response exits the
process, while a concrete writer run on the same response does not. -/
theorem reader_exit_policy_witness :
    get_ref_area_codelist sampleParams ⟨200, "<html>Blocked</html>", none⟩ =
      .exit "FMR instance not accessible!" ∧
    (add_single_item_to_codelist sampleParams
      ⟨⟨200, "<html>Blocked</html>", none⟩, ⟨200, "", none⟩,
       ⟨200, "<html>Blocked</html>", none⟩⟩
      [117] [112] "CL_TEST" "USA" "United States" "WB" "MERGE").1 ≠
      .exit "FMR instance not accessible!" :=
  ⟨reader_exit_policy.1 sampleParams ⟨200, "<html>Blocked</html>", none⟩ rfl,
   reader_exit_policy.2.1 sampleParams
     ⟨⟨200, "<html>Blocked</html>", none⟩, ⟨200, "", none⟩,
      ⟨200, "<html>Blocked</html>", none⟩⟩
     [117] [112] "CL_TEST" "USA" "United States" "WB" "MERGE"
     "FMR instance not accessible!"⟩

/-- Decoding a base64 character of the alphabet recovers its six-bit
value. -/
theorem b64DecChar_b64Char : ∀ n < 64, b64DecChar (b64Char n) = some n := by
  decide

/-- No alphabet character is the padding character. -/
theorem b64Char_ne : ∀ n < 64, b64Char n ≠ '=' := by decide

/-- Base64 decoding inverts base64 encoding on byte sequences. -/
theorem b64_roundtrip (bs : List Nat) :
    (∀ b ∈ bs, b < 256) → b64decode (b64encBytes bs) = some bs := by
  induction bs using b64encBytes.induct with
  | case1 => intro _; rfl
  | case2 b1 =>
      intro h
      have h1 : b1 < 256 := h b1 (by simp)
      have e1 := b64DecChar_b64Char (b1 / 4) (by omega)
      have e2 := b64DecChar_b64Char (b1 % 4 * 16) (by omega)
      simp [b64encBytes, b64decode, e1, e2]
      omega
  | case3 b1 b2 =>
      intro h
      have h1 : b1 < 256 := h b1 (by simp)
      have h2 : b2 < 256 := h b2 (by simp)
      have e1 := b64DecChar_b64Char (b1 / 4) (by omega)
      have e2 := b64DecChar_b64Char (b1 % 4 * 16 + b2 / 16) (by omega)
      have e3 := b64DecChar_b64Char (b2 % 16 * 4) (by omega)
      have n3 := b64Char_ne (b2 % 16 * 4) (by omega)
      simp [b64encBytes, b64decode, e1, e2, e3, n3]
      omega
  | case4 b1 b2 b3 t ih =>
      intro h
      have h1 : b1 < 256 := h b1 (by simp)
      have h2 : b2 < 256 := h b2 (by simp)
      have h3 : b3 < 256 := h b3 (by simp)
      have ht := ih (fun b hb => h b (by simp [hb]))
      have e1 := b64DecChar_b64Char (b1 / 4) (by omega)
      have e2 := b64DecChar_b64Char (b1 % 4 * 16 + b2 / 16) (by omega)
      have e3 := b64DecChar_b64Char (b2 % 16 * 4 + b3 / 64) (by omega)
      have e4 := b64DecChar_b64Char (b3 % 64) (by omega)
      have n3 := b64Char_ne (b2 % 16 * 4 + b3 / 64) (by omega)
      have n4 := b64Char_ne (b3 % 64) (by omega)
      simp [b64encBytes, b64decode, e1, e2, e3, e4, n3, n4, ht]
      refine ⟨by omega, by omega, by omega⟩

/-- C10: for any credential pair, `fmr_auth` returns exactly an
`Authorization` header whose value, after the `Basic ` prefix,
base64-decodes to `user:password`, and a `Content-Type:
application/json` header; the embedding is a pure function of its
inputs. -/
theorem fmr_auth_spec (p : ApiParams) (user password : List Nat)
    (hu : ∀ b ∈ user, b < 256) (hp : ∀ b ∈ password, b < 256) :
    ∃ s : String,
      fmr_auth p user password =
        [("Authorization", "Basic " ++ s),
         ("Content-Type", "application/json")] ∧
      b64decode s.data = some (user ++ 58 :: password) := by
  refine ⟨String.mk (b64encBytes (user ++ 58 :: password)), rfl, ?_⟩
  refine b64_roundtrip _ ?_
  intro b hb
  rcases List.mem_append.mp hb with h1 | h1
  · exact hu b h1
  · rcases List.mem_cons.mp h1 with h2 | h2
    · omega
    · exact hp b h2

/-- Witness for C10 at the credentials `user` / `pass` (as UTF-8
bytes). -/
theorem fmr_auth_spec_witness :
    ∃ s : String,
      fmr_auth sampleParams [117, 115, 101, 114] [112, 97, 115, 115] =
        [("Authorization", "Basic " ++ s),
         ("Content-Type", "application/json")] ∧
      b64decode s.data =
        some ([117, 115, 101, 114] ++ 58 :: [112, 97, 115, 115]) :=
  fmr_auth_spec sampleParams [117, 115, 101, 114] [112, 97, 115, 115]
    (by decide) (by decide)

/-- Witness for C3: a status body `{"Status": "Complete"}` with neither
key. -/
theorem validate_no_keys_unbound_witness :
    (validate_single_dataset_fmr sampleParams
      ⟨⟨200, "", some (.obj [("uid", .str "123")])⟩,
       ⟨200, "", some (.obj [("Status", .str "Complete")])⟩⟩).1 =
      .exc .unboundLocal :=
  validate_no_keys_unbound sampleParams _ _ _ _ rfl rfl rfl rfl rfl rfl
